import Mathlib

/-! Verification development.
Shallow embedding of `src/components/ha-web-rtc-player.ts` (the
`ha-web-rtc-player` Lit component).

External collaborators — the backend data-fetch functions
(`fetchWebRtcConfig`, `fetchWebRtcSettings`, `handleWebRtcOffer`,
`closeWebRtcStream`), the browser peer-connection API and the media-capture
API — are modelled by an `Env` record holding the outcome each external call
returns during one run.  Component methods become pure functions from the
environment and the component state to a new state together with a trace of
observable actions (constructor calls, transceiver additions, network calls,
DOM mutations), in execution order.

Platform semantics encoded in the model (per the WebRTC specification):
`track` events on a peer connection fire as part of a *successful*
`setRemoteDescription` application, one per remote track; a rejected
`setRemoteDescription` fires none.  ICE `icecandidate` events deliver the
candidates of `Env.candidates` in order, followed by the null candidate that
resolves the gathering wait.
-/

deriving instance DecidableEq for Except

namespace HaWebRtcPlayer

/-- An ICE server entry of an `RTCConfiguration` (`{ urls: [...] }`). -/
structure RTCIceServer where
  urls : List String
  deriving Repr, DecidableEq

/-- The configuration handed to `new RTCPeerConnection(...)`; `{}` is
`⟨none⟩`. -/
structure RTCConfiguration where
  iceServers : Option (List RTCIceServer) := none
  deriving Repr, DecidableEq

/-- The per-entity transport configuration returned by `fetchWebRtcConfig`. -/
structure WebRtcConfig where
  rtc_configuration : Option RTCConfiguration
  create_data_channel : Option Bool
  audio_direction : Option String
  deriving Repr, DecidableEq

/-- The fallback settings returned by `fetchWebRtcSettings`. -/
structure WebRtcSettings where
  stun_server : Option String
  deriving Repr, DecidableEq

/-- A media track; `enabled` is the mutable mute flag. -/
structure MediaStreamTrack where
  id : Nat
  kind : String
  enabled : Bool
  deriving Repr, DecidableEq

/-- A `MediaStream`: the (ordered) tracks added to it. -/
structure MediaStream where
  tracks : List MediaStreamTrack := []
  deriving Repr, DecidableEq

/-- The `#remote-stream` video element; only `srcObject` is ever assigned by
the component. -/
structure VideoElement where
  srcObject : Option MediaStream := none
  deriving Repr, DecidableEq

/-- The constraints object passed to `getUserMedia`/`getDisplayMedia`. -/
structure MediaConstraints where
  video : Bool
  audio : Bool
  deriving Repr, DecidableEq

/-- First argument of `RTCPeerConnection.addTransceiver`: either a track value
(possibly `undefined`, from a TS non-null assertion) or a kind string. -/
inductive TransceiverSrc where
  | track (t : Option MediaStreamTrack)
  | kind (k : String)
  deriving Repr, DecidableEq

/-- One observable action of a run, in execution order. -/
inductive Action where
  | fetchWebRtcConfig (entityid : String)
  | fetchWebRtcSettings
  | newPeerConnection (pc : Nat) (config : RTCConfiguration)
  | createDataChannel (pc : Nat) (label : String)
  | consoleWarn (msg : String)
  | addTransceiver (pc : Nat) (src : TransceiverSrc) (direction : String)
  | createOffer (pc : Nat)
  | setLocalDescription (pc : Nat) (sdp : String)
  | handleWebRtcOffer (entityid : String) (sdp : String)
  | registerTrackListener (pc : Nat)
  | setRemoteDescription (pc : Nat) (descType : String) (sdp : String)
  | remoteDescApplied (pc : Nat)
  | attachStream (tracks : List MediaStreamTrack)
  | closePeerConnection (pc : Nat)
  | stopTrack (t : MediaStreamTrack)
  | removeVideoSrcAttribute
  | videoLoad
  | closeWebRtcStream (entityid : String)
  deriving Repr, DecidableEq

/-- The component's own fields: `_error`, the queried `_videoEl`,
`_peerConnection` (by identity), `_remoteStream`, `_localReturnAudioTrack`. -/
structure CompState where
  error : Option String := none
  videoEl : Option VideoElement := none
  peerConnection : Option Nat := none
  remoteStream : Option MediaStream := none
  localReturnAudioTrack : Option MediaStreamTrack := none
  deriving Repr, DecidableEq

/-- Outcomes of every external call made during one run of the component. -/
structure Env where
  /-- The result of `fetchWebRtcConfig(hass, entityid)` (`undefined` = `none`) -/
  webRtcConfig : Option WebRtcConfig
  /-- The value of `isComponentLoaded(hass, "rtsp_to_webrtc")` -/
  rtspToWebrtcLoaded : Bool
  /-- The result of `fetchWebRtcSettings(hass)` (`undefined` = `none`) -/
  settings : Option WebRtcSettings
  /-- Truthiness of `navigator.mediaDevices` -/
  mediaDevices : Bool
  /-- The `getUserMedia` result: the stream tracks, or a rejection message -/
  getUserMedia : Except String (List MediaStreamTrack)
  /-- The `getDisplayMedia` result (never reached by the one call made here) -/
  getDisplayMedia : Except String (List MediaStreamTrack)
  /-- Identity of the `RTCPeerConnection` this run constructs -/
  pcId : Nat
  /-- The `offer.sdp` string of the created offer -/
  offerSdp : String
  /-- The `candidate.candidate` strings delivered before the null candidate -/
  candidates : List String
  /-- The `handleWebRtcOffer` result: the answer sdp, or a rejection message -/
  answer : Except String String
  /-- The `setRemoteDescription` outcome: success, or a rejection message -/
  remoteDesc : Except String Unit
  /-- The remote tracks announced by `track` events on successful application -/
  remoteTracks : List MediaStreamTrack
  deriving Repr, DecidableEq

/-- JS truthiness of an optional string (`undefined` and `""` are falsy). -/
def optStrTruthy : Option String → Bool
  | none => false
  | some s => s != ""

/-- Embeds `getMediaTracks(media, constraints)` (source lines 218–230): pick
`getUserMedia` or `getDisplayMedia` by the `media` tag, return the stream's
tracks; a capture failure is caught, logged via `console.warn`, and turned
into the empty track list. -/
def getMediaTracks (env : Env) (media : String) (_constraints : MediaConstraints) :
    List MediaStreamTrack × List Action :=
  match (if media == "user" then env.getUserMedia else env.getDisplayMedia) with
  | .ok tracks => (tracks, [])
  | .error e => ([], [Action.consoleWarn e])

/-- Embeds `_fetchPeerConfiguration()` (source lines 232–247): `{}` unless the
`rtsp_to_webrtc` component is loaded and its settings carry a truthy
`stun_server`, in which case one STUN ICE server is configured. -/
def fetchPeerConfiguration (env : Env) : RTCConfiguration × List Action :=
  if !env.rtspToWebrtcLoaded then
    (⟨none⟩, [])
  else
    match env.settings with
    | none => (⟨none⟩, [Action.fetchWebRtcSettings])
    | some settings =>
      if !optStrTruthy settings.stun_server then
        (⟨none⟩, [Action.fetchWebRtcSettings])
      else
        (⟨some [⟨["stun:" ++ settings.stun_server.getD ""]⟩]⟩,
         [Action.fetchWebRtcSettings])

/-- Source lines 123–129: use `web_rtc_config.rtc_configuration` when the
fetched config and that field are truthy, else fall back to
`_fetchPeerConfiguration`. -/
def resolvePeerConfiguration (env : Env) : RTCConfiguration × List Action :=
  match env.webRtcConfig with
  | some cfg =>
      match cfg.rtc_configuration with
      | some rc => (rc, [])
      | none => fetchPeerConfiguration env
  | none => fetchPeerConfiguration env

/-- Source lines 132–136: create the `"dataSendChannel"` data channel exactly
when `web_rtc_config.create_data_channel === true`. -/
def dataChannelActions (env : Env) (pc : Nat) : List Action :=
  match env.webRtcConfig with
  | some cfg =>
      if cfg.create_data_channel == some true then
        [Action.createDataChannel pc "dataSendChannel"]
      else []
  | none => []

/-- Truthiness of the two-way-audio guard (source lines 140–144):
`web_rtc_config && web_rtc_config.audio_direction === "sendrecv" &&
navigator.mediaDevices`. -/
def audioSendRecv (env : Env) : Bool :=
  (match env.webRtcConfig with
   | some cfg => cfg.audio_direction == some "sendrecv"
   | none => false)
  && env.mediaDevices

/-- Source lines 140–159: when two-way audio is requested and media devices
exist, capture local audio; when at least one track came back, record it in
`_localReturnAudioTrack` with `enabled` forced to `false`; then (with a TS
non-null assertion) add a `"sendrecv"` transceiver seeded with whatever
`_localReturnAudioTrack` holds.  Otherwise add a receive-only audio
transceiver. -/
def audioSetup (env : Env) (pc : Nat) (s : CompState) : CompState × List Action :=
  if audioSendRecv env then
    let captured := getMediaTracks env "user" ⟨false, true⟩
    let s' :=
      match captured.1 with
      | t :: _ => { s with localReturnAudioTrack := some { t with enabled := false } }
      | [] => s
    (s', captured.2 ++ [Action.addTransceiver pc (.track s'.localReturnAudioTrack) "sendrecv"])
  else
    (s, [Action.addTransceiver pc (.kind "audio") "recvonly"])

/-- The candidate trailer (source lines 169–179): the `icecandidate` listener
appends `"a=" + candidate + "\r\n"` per candidate until the null candidate
resolves the wait. -/
def candidateTrailer (cands : List String) : String :=
  cands.foldl (fun acc c => acc ++ "a=" ++ c ++ "\r\n") ""

/-- The `offer_sdp` value (source line 180): `offer.sdp! + candidates`. -/
def offerPayload (env : Env) : String :=
  env.offerSdp ++ candidateTrailer env.candidates

/-- The `track`-event listener body (source lines 197–200), run once per
remote track announced during successful remote-description application:
`remoteStream.addTrack(event.track); this._videoEl.srcObject = remoteStream`.
Returns the final stream, the final video element, and one `attachStream`
action per assignment recording the stream contents assigned. -/
def deliverTracks (videoEl : Option VideoElement) (rs : MediaStream) :
    List MediaStreamTrack → MediaStream × Option VideoElement × List Action
  | [] => (rs, videoEl, [])
  | t :: ts =>
      let rs' : MediaStream := ⟨rs.tracks ++ [t]⟩
      let ve' := videoEl.map fun v => { v with srcObject := some rs' }
      let rest := deliverTracks ve' rs' ts
      (rest.1, rest.2.1, Action.attachStream rs'.tracks :: rest.2.2)

/-- The trace of everything `_startWebRtc` does before awaiting
`handleWebRtcOffer`, ending with that call itself (source lines 120–188). -/
def preSignalTrace (env : Env) (entityid : String) (s : CompState) : List Action :=
  Action.fetchWebRtcConfig entityid :: (resolvePeerConfiguration env).2
    ++ [Action.newPeerConnection env.pcId (resolvePeerConfiguration env).1]
    ++ dataChannelActions env env.pcId
    ++ (audioSetup env env.pcId s).2
    ++ [Action.addTransceiver env.pcId (.kind "video") "recvonly",
        Action.createOffer env.pcId,
        Action.setLocalDescription env.pcId env.offerSdp,
        Action.handleWebRtcOffer entityid (offerPayload env)]

/-- Embeds `_startWebRtc()` (source lines 120–216).  Clears `_error`, resolves the
configuration, constructs the peer connection, optionally a data channel,
sets up the audio transceiver, adds the video transceiver, creates and sets
the local offer, waits for candidate gathering, submits the offer.  On a
rejected submission: set `_error`, close the peer connection, return.  On an
answer: create the remote `MediaStream`, register the `track` listener,
record `_remoteStream`, apply the answer as the remote description.  On a
rejected application: set `_error`, close the peer connection, return.  On
success the platform fires the `track` events and `_peerConnection` is
recorded. -/
def startWebRtc (env : Env) (entityid : String) (s0 : CompState) :
    CompState × List Action :=
  let s1 : CompState := { s0 with error := none }
  let pc := env.pcId
  let s2 := (audioSetup env pc s1).1
  let tPre := preSignalTrace env entityid s1
  match env.answer with
  | .error msg =>
      ({ s2 with error := some ("Failed to start WebRTC stream: " ++ msg) },
       tPre ++ [Action.closePeerConnection pc])
  | .ok answerSdp =>
      let s3 : CompState := { s2 with remoteStream := some ⟨[]⟩ }
      match env.remoteDesc with
      | .error msg =>
          ({ s3 with error := some ("Failed to connect WebRTC stream: " ++ msg) },
           tPre ++ [Action.registerTrackListener pc,
                    Action.setRemoteDescription pc "answer" answerSdp,
                    Action.closePeerConnection pc])
      | .ok _ =>
          let delivered := deliverTracks s3.videoEl ⟨[]⟩ env.remoteTracks
          ({ s3 with remoteStream := some delivered.1, videoEl := delivered.2.1,
                     peerConnection := some pc },
           tPre ++ [Action.registerTrackListener pc,
                    Action.setRemoteDescription pc "answer" answerSdp,
                    Action.remoteDescApplied pc] ++ delivered.2.2)

/-- JS member access: reading through `undefined` throws a `TypeError`. -/
def jsGet {α : Type} : Option α → Except String α
  | some a => .ok a
  | none => .error "TypeError: cannot read properties of undefined"

/-- Embeds `_cleanUp()` (source lines 249–268): stop and drop the remote stream
tracks, stop the local return-audio track, reset the video element, and —
only when a peer connection is recorded — close it, drop it, and ask the
backend to release the stream.  Every step sits behind its own presence
guard; dereferences are through `jsGet`, so an unguarded one would surface as
`.error`. -/
def cleanUp (entityid : String) (s : CompState) :
    Except String (CompState × List Action) := do
  let (s, t1) ←
    if s.remoteStream.isSome then do
      let rs ← jsGet s.remoteStream
      pure ({ s with remoteStream := none }, rs.tracks.map Action.stopTrack)
    else pure (s, [])
  let t2 ←
    if s.localReturnAudioTrack.isSome then do
      let tr ← jsGet s.localReturnAudioTrack
      pure [Action.stopTrack tr]
    else pure ([] : List Action)
  let t3 ←
    if s.videoEl.isSome then do
      let _ ← jsGet s.videoEl
      pure [Action.removeVideoSrcAttribute, Action.videoLoad]
    else pure ([] : List Action)
  let (s, t4) ←
    if s.peerConnection.isSome then do
      let pc ← jsGet s.peerConnection
      pure ({ s with peerConnection := none },
            [Action.closePeerConnection pc, Action.closeWebRtcStream entityid])
    else pure (s, ([] : List Action))
  pure (s, t1 ++ t2 ++ t3 ++ t4)

/-- Embeds `updated(changedProperties)` (source lines 110–118): bail out unless
`entityid` changed and the video element exists; otherwise re-run
`_startWebRtc` — with no teardown of any existing session. -/
def updatedHook (changed : List String) (env : Env) (entityid : String)
    (s : CompState) : CompState × List Action :=
  if !(changed.contains "entityid") then (s, [])
  else if s.videoEl.isNone then (s, [])
  else startWebRtc env entityid s

/-- Embeds `disconnectedCallback()` (source lines 105–108): tear the session down. -/
def disconnectedCallback (entityid : String) (s : CompState) :
    Except String (CompState × List Action) :=
  cleanUp entityid s

/-- What `render()` (source lines 66–96) produces: the error alert when
`_error` is set, else the video plus — only when `_localReturnAudioTrack` is
set — the microphone control showing that track's `enabled` flag. -/
inductive RenderOutput where
  | errorAlert (msg : String)
  | video (micControl : Option Bool)
  deriving Repr, DecidableEq

/-- Embeds `render()` as a function of the component state. -/
def render (s : CompState) : RenderOutput :=
  match s.error with
  | some e => .errorAlert e
  | none => .video (s.localReturnAudioTrack.map (·.enabled))

/-- The transceivers a trace adds, in order. -/
def transceiversOf (tr : List Action) : List (TransceiverSrc × String) :=
  tr.filterMap fun a =>
    match a with
    | .addTransceiver _ src dir => some (src, dir)
    | _ => none

/-- The configurations of peer connections a trace constructs. -/
def constructedConfigs (tr : List Action) : List RTCConfiguration :=
  tr.filterMap fun a =>
    match a with
    | .newPeerConnection _ cfg => some cfg
    | _ => none

/-- The offer payloads a trace submits to the backend. -/
def offerPayloads (tr : List Action) : List String :=
  tr.filterMap fun a =>
    match a with
    | .handleWebRtcOffer _ sdp => some sdp
    | _ => none

/-- Scans a trace left to right; `true` iff every `attachStream` is preceded
by some `remoteDescApplied`. -/
def attachAfterApplied : List Action → Bool → Bool
  | [], _ => true
  | a :: rest, seen =>
      match a with
      | .remoteDescApplied _ => attachAfterApplied rest true
      | .attachStream _ => seen && attachAfterApplied rest seen
      | _ => attachAfterApplied rest seen

/-- Whether a trace contains a successful remote-description application. -/
def hasRemoteDescApplied (l : List Action) : Bool :=
  l.any fun a =>
    match a with
    | .remoteDescApplied _ => true
    | _ => false

/-- Classifier for the actions `_startWebRtc` can emit before the signaling
exchange returns (everything up to and including `handleWebRtcOffer`). -/
def isSetupAction : Action → Bool
  | .fetchWebRtcConfig _ => true
  | .fetchWebRtcSettings => true
  | .newPeerConnection _ _ => true
  | .createDataChannel _ _ => true
  | .consoleWarn _ => true
  | .addTransceiver _ _ _ => true
  | .createOffer _ => true
  | .setLocalDescription _ _ => true
  | .handleWebRtcOffer _ _ => true
  | _ => false

/-- A concrete environment used to instantiate the theorems on closed
inputs; individual runs override fields by record update. -/
def envBase : Env where
  webRtcConfig := none
  rtspToWebrtcLoaded := false
  settings := none
  mediaDevices := false
  getUserMedia := .error "NotFoundError"
  getDisplayMedia := .error "NotFoundError"
  pcId := 1
  offerSdp := "v=0\r\ns=-\r\n"
  candidates := ["candidate:1 1 udp 2130706431 10.0.0.2 54321 typ host"]
  answer := .ok "v=0\r\ns=answer\r\n"
  remoteDesc := .ok ()
  remoteTracks := [⟨21, "video", true⟩]

/-! Section: Classification of the actions each phase emits -/

theorem fetchPeerConfiguration_actions (env : Env) :
    ∀ a ∈ (fetchPeerConfiguration env).2, a = Action.fetchWebRtcSettings := by
  intro a ha
  unfold fetchPeerConfiguration at ha
  split at ha
  · simp at ha
  · split at ha
    · simpa using ha
    · split at ha <;> simpa using ha

theorem resolvePeerConfiguration_actions (env : Env) :
    ∀ a ∈ (resolvePeerConfiguration env).2, a = Action.fetchWebRtcSettings := by
  intro a ha
  unfold resolvePeerConfiguration at ha
  split at ha
  · split at ha
    · simp at ha
    · exact fetchPeerConfiguration_actions env a ha
  · exact fetchPeerConfiguration_actions env a ha

theorem dataChannelActions_mem (env : Env) (pc : Nat) :
    ∀ a ∈ dataChannelActions env pc,
      a = Action.createDataChannel pc "dataSendChannel" := by
  intro a ha
  unfold dataChannelActions at ha
  split at ha
  · split at ha
    · simpa using ha
    · simp at ha
  · simp at ha

theorem getMediaTracks_actions (env : Env) (m : String) (c : MediaConstraints) :
    ∀ a ∈ (getMediaTracks env m c).2, ∃ msg, a = Action.consoleWarn msg := by
  intro a ha
  unfold getMediaTracks at ha
  split at ha
  · simp at ha
  · simp at ha
    exact ⟨_, ha⟩

theorem audioSetup_actions (env : Env) (pc : Nat) (s : CompState) :
    ∀ a ∈ (audioSetup env pc s).2, isSetupAction a = true := by
  intro a ha
  unfold audioSetup at ha
  split at ha
  · simp only at ha
    rcases List.mem_append.mp ha with h | h
    · obtain ⟨msg, rfl⟩ := getMediaTracks_actions env "user" ⟨false, true⟩ a h
      rfl
    · rw [List.mem_singleton.mp h]
      rfl
  · rw [List.mem_singleton.mp ha]
    rfl

theorem preSignalTrace_setup (env : Env) (eid : String) (s : CompState) :
    ∀ a ∈ preSignalTrace env eid s, isSetupAction a = true := by
  intro a ha
  unfold preSignalTrace at ha
  rcases List.mem_cons.mp ha with rfl | ha
  · rfl
  rcases List.mem_append.mp ha with ha | ha
  · rcases List.mem_append.mp ha with ha | ha
    · rcases List.mem_append.mp ha with ha | ha
      · rcases List.mem_append.mp ha with ha | ha
        · rw [resolvePeerConfiguration_actions env a ha]; rfl
        · rw [List.mem_singleton.mp ha]; rfl
      · rw [dataChannelActions_mem env env.pcId a ha]; rfl
    · exact audioSetup_actions env env.pcId s a ha
  · simp only [List.mem_cons, List.mem_singleton, List.not_mem_nil, or_false] at ha
    rcases ha with rfl | rfl | rfl | rfl <;> rfl

theorem deliverTracks_actions (ve : Option VideoElement) (rs : MediaStream)
    (ts : List MediaStreamTrack) :
    ∀ a ∈ (deliverTracks ve rs ts).2.2, ∃ tks, a = Action.attachStream tks := by
  induction ts generalizing ve rs with
  | nil => intro a ha; simp [deliverTracks] at ha
  | cons t ts ih =>
      intro a ha
      simp only [deliverTracks] at ha
      rcases List.mem_cons.mp ha with rfl | ha
      · exact ⟨_, rfl⟩
      · exact ih _ _ a ha

theorem audioSetup_shape (env : Env) (pc : Nat) (s : CompState) :
    ∀ a ∈ (audioSetup env pc s).2,
      (∃ m, a = Action.consoleWarn m) ∨
      ∃ src dir, a = Action.addTransceiver pc src dir := by
  intro a ha
  unfold audioSetup at ha
  split at ha
  · rcases List.mem_append.mp ha with h | h
    · exact Or.inl (getMediaTracks_actions env "user" ⟨false, true⟩ a h)
    · exact Or.inr ⟨_, _, List.mem_singleton.mp h⟩
  · exact Or.inr ⟨_, _, List.mem_singleton.mp ha⟩

/-! Section: Branch-unfolding equations for `_startWebRtc` -/

theorem startWebRtc_sigFail (env : Env) (eid : String) (s : CompState) (msg : String)
    (h : env.answer = .error msg) :
    startWebRtc env eid s =
      ({ (audioSetup env env.pcId { s with error := none }).1 with
          error := some ("Failed to start WebRTC stream: " ++ msg) },
       preSignalTrace env eid { s with error := none }
         ++ [Action.closePeerConnection env.pcId]) := by
  unfold startWebRtc
  rw [h]

theorem startWebRtc_rdFail (env : Env) (eid : String) (s : CompState)
    (aSdp msg : String) (h1 : env.answer = .ok aSdp)
    (h2 : env.remoteDesc = .error msg) :
    startWebRtc env eid s =
      ({ (audioSetup env env.pcId { s with error := none }).1 with
          remoteStream := some ⟨[]⟩,
          error := some ("Failed to connect WebRTC stream: " ++ msg) },
       preSignalTrace env eid { s with error := none }
         ++ [Action.registerTrackListener env.pcId,
             Action.setRemoteDescription env.pcId "answer" aSdp,
             Action.closePeerConnection env.pcId]) := by
  unfold startWebRtc
  rw [h1, h2]

theorem startWebRtc_success (env : Env) (eid : String) (s : CompState)
    (aSdp : String) (h1 : env.answer = .ok aSdp) (h2 : env.remoteDesc = .ok ()) :
    startWebRtc env eid s =
      ({ (audioSetup env env.pcId { s with error := none }).1 with
          remoteStream := some (deliverTracks
            (audioSetup env env.pcId { s with error := none }).1.videoEl
            ⟨[]⟩ env.remoteTracks).1,
          videoEl := (deliverTracks
            (audioSetup env env.pcId { s with error := none }).1.videoEl
            ⟨[]⟩ env.remoteTracks).2.1,
          peerConnection := some env.pcId },
       preSignalTrace env eid { s with error := none }
         ++ [Action.registerTrackListener env.pcId,
             Action.setRemoteDescription env.pcId "answer" aSdp,
             Action.remoteDescApplied env.pcId]
         ++ (deliverTracks
            (audioSetup env env.pcId { s with error := none }).1.videoEl
            ⟨[]⟩ env.remoteTracks).2.2) := by
  unfold startWebRtc
  rw [h1, h2]

theorem startWebRtc_trace (env : Env) (eid : String) (s : CompState) :
    ∃ post, (startWebRtc env eid s).2 =
        preSignalTrace env eid { s with error := none } ++ post ∧
      ∀ a ∈ post, isSetupAction a = false := by
  cases ha : env.answer with
  | error msg =>
      rw [startWebRtc_sigFail env eid s msg ha]
      refine ⟨_, rfl, ?_⟩
      intro a h
      rw [List.mem_singleton.mp h]; rfl
  | ok aSdp =>
      cases hr : env.remoteDesc with
      | error msg =>
          rw [startWebRtc_rdFail env eid s aSdp msg ha hr]
          refine ⟨_, rfl, ?_⟩
          intro a h
          simp only [List.mem_cons, List.not_mem_nil, or_false] at h
          rcases h with rfl | rfl | rfl <;> rfl
      | ok u =>
          cases u
          rw [startWebRtc_success env eid s aSdp ha hr]
          refine ⟨_, List.append_assoc _ _ _, ?_⟩
          intro a h
          rcases List.mem_append.mp h with h | h
          · simp only [List.mem_cons, List.not_mem_nil, or_false] at h
            rcases h with rfl | rfl | rfl <;> rfl
          · obtain ⟨tks, rfl⟩ := deliverTracks_actions _ _ _ a h
            rfl

/-! Section: Projections of traces -/

theorem transceiversOf_append (l1 l2 : List Action) :
    transceiversOf (l1 ++ l2) = transceiversOf l1 ++ transceiversOf l2 :=
  List.filterMap_append l1 l2 _

theorem constructedConfigs_append (l1 l2 : List Action) :
    constructedConfigs (l1 ++ l2) = constructedConfigs l1 ++ constructedConfigs l2 :=
  List.filterMap_append l1 l2 _

theorem offerPayloads_append (l1 l2 : List Action) :
    offerPayloads (l1 ++ l2) = offerPayloads l1 ++ offerPayloads l2 :=
  List.filterMap_append l1 l2 _

theorem transceiversOf_eq_nil (l : List Action)
    (h : ∀ a ∈ l, isSetupAction a = false) : transceiversOf l = [] := by
  unfold transceiversOf
  rw [List.filterMap_eq_nil_iff]
  intro a ha
  have hs := h a ha
  cases a <;> simp_all [isSetupAction]

theorem constructedConfigs_eq_nil (l : List Action)
    (h : ∀ a ∈ l, isSetupAction a = false) : constructedConfigs l = [] := by
  unfold constructedConfigs
  rw [List.filterMap_eq_nil_iff]
  intro a ha
  have hs := h a ha
  cases a <;> simp_all [isSetupAction]

theorem offerPayloads_eq_nil (l : List Action)
    (h : ∀ a ∈ l, isSetupAction a = false) : offerPayloads l = [] := by
  unfold offerPayloads
  rw [List.filterMap_eq_nil_iff]
  intro a ha
  have hs := h a ha
  cases a <;> simp_all [isSetupAction]

theorem offerPayloads_preSignal (env : Env) (eid : String) (s : CompState) :
    offerPayloads (preSignalTrace env eid s) = [offerPayload env] := by
  unfold preSignalTrace resolvePeerConfiguration fetchPeerConfiguration
    dataChannelActions audioSetup getMediaTracks
  repeat' split
  all_goals simp [offerPayloads]

theorem constructedConfigs_preSignal (env : Env) (eid : String) (s : CompState) :
    constructedConfigs (preSignalTrace env eid s) =
      [(resolvePeerConfiguration env).1] := by
  unfold preSignalTrace resolvePeerConfiguration fetchPeerConfiguration
    dataChannelActions audioSetup getMediaTracks
  repeat' split
  all_goals simp [constructedConfigs]

/-! Section: State-field lemmas -/

theorem audioSetup_fields (env : Env) (pc : Nat) (s : CompState) :
    (audioSetup env pc s).1.error = s.error ∧
    (audioSetup env pc s).1.videoEl = s.videoEl ∧
    (audioSetup env pc s).1.peerConnection = s.peerConnection ∧
    (audioSetup env pc s).1.remoteStream = s.remoteStream := by
  simp only [audioSetup]
  repeat' split
  all_goals exact ⟨rfl, rfl, rfl, rfl⟩

theorem startWebRtc_localTrack (env : Env) (eid : String) (s : CompState) :
    (startWebRtc env eid s).1.localReturnAudioTrack =
      (audioSetup env env.pcId { s with error := none }).1.localReturnAudioTrack := by
  unfold startWebRtc
  repeat' split
  all_goals rfl

theorem startWebRtc_peerConnection (env : Env) (eid : String) (s : CompState) :
    (startWebRtc env eid s).1.peerConnection =
      match env.answer, env.remoteDesc with
      | .ok _, .ok _ => some env.pcId
      | _, _ => s.peerConnection := by
  have hp := (audioSetup_fields env env.pcId { s with error := none }).2.2.1
  unfold startWebRtc
  repeat' split
  all_goals simp_all

/-- When two-way audio is requested, media devices exist and capture returns
`t :: ts`, the audio setup stores `t` muted and adds the one `"sendrecv"`
transceiver seeded with it. -/
theorem audioSetup_captured (env : Env) (pc : Nat) (s : CompState)
    (cfg : WebRtcConfig) (t : MediaStreamTrack) (ts : List MediaStreamTrack)
    (hc : env.webRtcConfig = some cfg) (hd : cfg.audio_direction = some "sendrecv")
    (hm : env.mediaDevices = true) (hg : env.getUserMedia = .ok (t :: ts)) :
    audioSetup env pc s =
      ({ s with localReturnAudioTrack := some { t with enabled := false } },
       [Action.addTransceiver pc
          (.track (some { t with enabled := false })) "sendrecv"]) := by
  simp [audioSetup, audioSendRecv, getMediaTracks, hc, hd, hm, hg]

/-! Section: The attach-after-applied scan -/

theorem attachAfterApplied_true (l : List Action) :
    attachAfterApplied l true = true := by
  induction l with
  | nil => rfl
  | cons a l ih => cases a <;> simpa [attachAfterApplied] using ih

theorem setup_not_attach (a : Action) (h : isSetupAction a = true) :
    ∀ ts, a ≠ Action.attachStream ts := by
  intro ts
  cases a <;> simp_all [isSetupAction]

theorem attachAfterApplied_of_no_attach (l : List Action) (seen : Bool)
    (h : ∀ a ∈ l, ∀ ts, a ≠ Action.attachStream ts) :
    attachAfterApplied l seen = true := by
  induction l generalizing seen with
  | nil => rfl
  | cons a l ih =>
      have ha := h a (List.mem_cons_self a l)
      have hl : ∀ b ∈ l, ∀ ts, b ≠ Action.attachStream ts :=
        fun b hb => h b (List.mem_cons_of_mem a hb)
      cases a <;> simp [attachAfterApplied] <;> first
        | exact ih _ hl
        | exact absurd rfl (ha _)

theorem attachAfterApplied_append (l1 l2 : List Action) (seen : Bool) :
    attachAfterApplied (l1 ++ l2) seen =
      (attachAfterApplied l1 seen &&
       attachAfterApplied l2 (seen || hasRemoteDescApplied l1)) := by
  induction l1 generalizing seen with
  | nil => simp [attachAfterApplied, hasRemoteDescApplied]
  | cons a l ih =>
      cases a <;>
        simp [attachAfterApplied, hasRemoteDescApplied, ih, Bool.and_assoc]

/-! Section: The candidate trailer -/

theorem candidateTrailer_eq (cs : List String) :
    candidateTrailer cs = String.join (cs.map fun c => "a=" ++ c ++ "\r\n") := by
  have joinCons : ∀ (x : String) (l : List String),
      String.join (x :: l) = x ++ String.join l := by
    intro x l
    apply String.ext
    simp [String.join_eq, String.data_append]
  have key : ∀ (l : List String) (init : String),
      l.foldl (fun acc c => acc ++ "a=" ++ c ++ "\r\n") init
        = init ++ String.join (l.map fun c => "a=" ++ c ++ "\r\n") := by
    intro l
    induction l with
    | nil =>
        intro init
        simp [String.join, String.append_empty]
    | cons c l ih =>
        intro init
        simp only [List.foldl_cons, List.map_cons, ih, joinCons]
        simp [String.append_assoc]
  simpa [String.empty_append] using key cs ""

/-! Section: Transceivers of the pre-signaling trace -/

theorem transceiversOf_preSignal (env : Env) (eid : String) (s : CompState) :
    transceiversOf (preSignalTrace env eid s) =
      transceiversOf (audioSetup env env.pcId s).2
        ++ [(TransceiverSrc.kind "video", "recvonly")] := by
  unfold preSignalTrace audioSetup getMediaTracks resolvePeerConfiguration
    fetchPeerConfiguration dataChannelActions
  repeat' split
  all_goals simp [transceiversOf]

/-! Section: Configuration fallback -/

theorem fetchPeerConfiguration_empty (env : Env)
    (h : env.rtspToWebrtcLoaded = false ∨ env.settings = none ∨
         ∃ st, env.settings = some st ∧ optStrTruthy st.stun_server = false) :
    (fetchPeerConfiguration env).1 = ⟨none⟩ := by
  rcases h with h | h | ⟨st, hst, hf⟩
  · unfold fetchPeerConfiguration
    rw [h]
    rfl
  · unfold fetchPeerConfiguration
    rw [h]
    cases hl : env.rtspToWebrtcLoaded <;> rfl
  · unfold fetchPeerConfiguration
    simp only [hst, hf]
    cases hl : env.rtspToWebrtcLoaded <;> rfl

theorem resolvePeerConfiguration_fallback (env : Env)
    (h1 : (env.webRtcConfig.bind fun c => c.rtc_configuration) = none) :
    resolvePeerConfiguration env = fetchPeerConfiguration env := by
  unfold resolvePeerConfiguration
  cases hw : env.webRtcConfig with
  | none => rfl
  | some cfg =>
      rw [hw] at h1
      simp only [Option.some_bind] at h1
      simp only [h1]

/-! Section: Cleanup lemmas -/

theorem cleanUp_release_iff (eid : String) (s s' : CompState) (t : List Action)
    (h : cleanUp eid s = .ok (s', t)) :
    (Action.closeWebRtcStream eid ∈ t ↔ s.peerConnection.isSome = true) := by
  rcases s with ⟨err, ve, pc, rs, lt⟩
  rcases ve with _ | ve <;> rcases pc with _ | pc <;> rcases rs with _ | rs <;>
      rcases lt with _ | lt <;>
    · simp only [cleanUp, jsGet, Option.isSome_some, Option.isSome_none, if_true,
        if_false, Bool.false_eq_true, pure, Except.pure, bind, Except.bind] at h
      cases h
      simp

theorem cleanUp_no_close (eid : String) (s : CompState)
    (hpc : s.peerConnection = none) (s' : CompState) (t : List Action)
    (h : cleanUp eid s = .ok (s', t)) :
    (∀ p, Action.closePeerConnection p ∉ t) ∧
    Action.closeWebRtcStream eid ∉ t := by
  rcases s with ⟨err, ve, pc, rs, lt⟩
  cases hpc
  rcases ve with _ | ve <;> rcases rs with _ | rs <;> rcases lt with _ | lt <;>
    · simp only [cleanUp, jsGet, Option.isSome_some, Option.isSome_none, if_true,
        if_false, Bool.false_eq_true, pure, Except.pure, bind, Except.bind] at h
      cases h
      simp

/-! Section: The claims -/

/-- Claim C1: if the signaling exchange (submitting the offer to the backend)
fails with a rejected promise, the widget sets a visible error message
(rendered in place of the video), closes the peer connection transport as its
final action, and aborts setup before any incoming-track listener is
registered, so no tracks are attached to the video element. -/
theorem c1_signaling_failure_aborts (env : Env) (eid : String) (s : CompState)
    (msg : String) (h : env.answer = .error msg) :
    (startWebRtc env eid s).1.error
        = some ("Failed to start WebRTC stream: " ++ msg) ∧
    render (startWebRtc env eid s).1
        = .errorAlert ("Failed to start WebRTC stream: " ++ msg) ∧
    ((startWebRtc env eid s).2).getLast?
        = some (Action.closePeerConnection env.pcId) ∧
    (∀ pc, Action.registerTrackListener pc ∉ (startWebRtc env eid s).2) ∧
    (∀ ts, Action.attachStream ts ∉ (startWebRtc env eid s).2) ∧
    (startWebRtc env eid s).1.videoEl = s.videoEl := by
  rw [startWebRtc_sigFail env eid s msg h]
  refine ⟨rfl, rfl, ?_, ?_, ?_, ?_⟩
  · rw [List.getLast?_append]
    rfl
  · intro pc hm
    rcases List.mem_append.mp hm with hm | hm
    · have := preSignalTrace_setup env eid _ _ hm
      simp [isSetupAction] at this
    · simp at hm
  · intro ts hm
    rcases List.mem_append.mp hm with hm | hm
    · have := preSignalTrace_setup env eid _ _ hm
      simp [isSetupAction] at this
    · simp at hm
  · exact (audioSetup_fields env env.pcId _).2.1

/-- Witness for C1 at a concrete environment whose offer submission rejects
with message `"timeout"`. -/
theorem c1_witness :
    (startWebRtc { envBase with answer := .error "timeout" } "camera.demo" {}).1.error
        = some ("Failed to start WebRTC stream: " ++ "timeout") ∧
    render (startWebRtc { envBase with answer := .error "timeout" } "camera.demo" {}).1
        = .errorAlert ("Failed to start WebRTC stream: " ++ "timeout") ∧
    ((startWebRtc { envBase with answer := .error "timeout" } "camera.demo" {}).2).getLast?
        = some (Action.closePeerConnection
            ({ envBase with answer := .error "timeout" } : Env).pcId) ∧
    (∀ pc, Action.registerTrackListener pc
        ∉ (startWebRtc { envBase with answer := .error "timeout" } "camera.demo" {}).2) ∧
    (∀ ts, Action.attachStream ts
        ∉ (startWebRtc { envBase with answer := .error "timeout" } "camera.demo" {}).2) ∧
    (startWebRtc { envBase with answer := .error "timeout" } "camera.demo" {}).1.videoEl
        = ({} : CompState).videoEl :=
  c1_signaling_failure_aborts { envBase with answer := .error "timeout" }
    "camera.demo" {} "timeout" rfl

/-- Claim C5: if applying the answer as the remote description fails, the
widget sets the short descriptive error message (rendered in place of the
video), closes the partially built peer connection as its final action, and
aborts without recording the peer connection in component state. -/
theorem c5_remote_description_failure_aborts (env : Env) (eid : String)
    (s : CompState) (aSdp msg : String) (h1 : env.answer = .ok aSdp)
    (h2 : env.remoteDesc = .error msg) :
    (startWebRtc env eid s).1.error
        = some ("Failed to connect WebRTC stream: " ++ msg) ∧
    render (startWebRtc env eid s).1
        = .errorAlert ("Failed to connect WebRTC stream: " ++ msg) ∧
    ((startWebRtc env eid s).2).getLast?
        = some (Action.closePeerConnection env.pcId) ∧
    (startWebRtc env eid s).1.peerConnection = s.peerConnection := by
  rw [startWebRtc_rdFail env eid s aSdp msg h1 h2]
  refine ⟨rfl, rfl, ?_, ?_⟩
  · rw [List.getLast?_append]
    rfl
  · exact (audioSetup_fields env env.pcId _).2.2.1

/-- Witness for C5 at a concrete environment whose remote-description
application rejects with message `"sdp parse error"`. -/
theorem c5_witness :
    (startWebRtc { envBase with remoteDesc := .error "sdp parse error" }
        "camera.demo" {}).1.error
        = some ("Failed to connect WebRTC stream: " ++ "sdp parse error") ∧
    render (startWebRtc { envBase with remoteDesc := .error "sdp parse error" }
        "camera.demo" {}).1
        = .errorAlert ("Failed to connect WebRTC stream: " ++ "sdp parse error") ∧
    ((startWebRtc { envBase with remoteDesc := .error "sdp parse error" }
        "camera.demo" {}).2).getLast?
        = some (Action.closePeerConnection
            ({ envBase with remoteDesc := .error "sdp parse error" } : Env).pcId) ∧
    (startWebRtc { envBase with remoteDesc := .error "sdp parse error" }
        "camera.demo" {}).1.peerConnection = ({} : CompState).peerConnection :=
  c5_remote_description_failure_aborts
    { envBase with remoteDesc := .error "sdp parse error" } "camera.demo" {}
    "v=0\r\ns=answer\r\n" "sdp parse error" rfl rfl

/-- Claim C7: the cleanup path never throws, from every component state
(including the empty one with no session at all), and calling it twice
consecutively never throws either: every release step is individually
guarded against absent state. -/
theorem c7_cleanup_twice_no_throw (eid : String) (s : CompState) :
    ∃ s₁ t₁ s₂ t₂, cleanUp eid s = .ok (s₁, t₁) ∧ cleanUp eid s₁ = .ok (s₂, t₂) := by
  rcases s with ⟨err, ve, pc, rs, lt⟩
  rcases ve with _ | ve <;> rcases pc with _ | pc <;> rcases rs with _ | rs <;>
      rcases lt with _ | lt <;>
    exact ⟨_, _, _, _, rfl, rfl⟩

/-- Claim C8: the offer payload transmitted to the backend equals the original
local session description string with one textual line `"a=" + candidate +
"\r\n"` appended per ICE candidate, in gathering order. -/
theorem c8_offer_payload (env : Env) (eid : String) (s : CompState) :
    offerPayloads (startWebRtc env eid s).2 =
      [env.offerSdp ++ String.join (env.candidates.map fun c => "a=" ++ c ++ "\r\n")] := by
  obtain ⟨post, heq, hpost⟩ := startWebRtc_trace env eid s
  rw [heq, offerPayloads_append, offerPayloads_preSignal,
      offerPayloads_eq_nil post hpost, List.append_nil]
  simp [offerPayload, candidateTrailer_eq]

/-- Claim C9: in every execution of the negotiation sequence, no incoming
media stream is attached to the video element before the remote-description
application has succeeded. -/
theorem c9_no_attach_before_applied (env : Env) (eid : String) (s : CompState) :
    attachAfterApplied (startWebRtc env eid s).2 false = true := by
  cases ha : env.answer with
  | error msg =>
      rw [startWebRtc_sigFail env eid s msg ha]
      apply attachAfterApplied_of_no_attach
      intro a hm
      rcases List.mem_append.mp hm with hm | hm
      · exact setup_not_attach a (preSignalTrace_setup env eid _ a hm)
      · rw [List.mem_singleton.mp hm]
        intro ts
        simp
  | ok aSdp =>
      cases hr : env.remoteDesc with
      | error msg =>
          rw [startWebRtc_rdFail env eid s aSdp msg ha hr]
          apply attachAfterApplied_of_no_attach
          intro a hm
          rcases List.mem_append.mp hm with hm | hm
          · exact setup_not_attach a (preSignalTrace_setup env eid _ a hm)
          · simp only [List.mem_cons, List.not_mem_nil, or_false] at hm
            rcases hm with rfl | rfl | rfl <;> (intro ts; simp)
      | ok u =>
          cases u
          rw [startWebRtc_success env eid s aSdp ha hr]
          rw [attachAfterApplied_append]
          have hseen : hasRemoteDescApplied
              (preSignalTrace env eid { s with error := none }
                ++ [Action.registerTrackListener env.pcId,
                    Action.setRemoteDescription env.pcId "answer" aSdp,
                    Action.remoteDescApplied env.pcId]) = true := by
            simp [hasRemoteDescApplied, List.any_append]
          rw [hseen]
          have hpre : attachAfterApplied
              (preSignalTrace env eid { s with error := none }
                ++ [Action.registerTrackListener env.pcId,
                    Action.setRemoteDescription env.pcId "answer" aSdp,
                    Action.remoteDescApplied env.pcId]) false = true := by
            apply attachAfterApplied_of_no_attach
            intro a hm
            rcases List.mem_append.mp hm with hm | hm
            · exact setup_not_attach a (preSignalTrace_setup env eid _ a hm)
            · simp only [List.mem_cons, List.not_mem_nil, or_false] at hm
              rcases hm with rfl | rfl | rfl <;> (intro ts; simp)
          rw [hpre]
          simp [attachAfterApplied_true]

/-- Claim C2: when the backend reports `audio_direction: "sendrecv"`, media
devices are available, and local audio capture returns at least one track,
the peer connection gets exactly one audio transceiver — direction
`"sendrecv"`, seeded with the first captured track — besides the
receive-only video transceiver, and the seeded track's `enabled` flag is
`false` (mic starts muted). -/
theorem c2_sendrecv_transceiver (env : Env) (eid : String) (s : CompState)
    (cfg : WebRtcConfig) (t : MediaStreamTrack) (ts : List MediaStreamTrack)
    (hc : env.webRtcConfig = some cfg) (hd : cfg.audio_direction = some "sendrecv")
    (hm : env.mediaDevices = true) (hg : env.getUserMedia = .ok (t :: ts)) :
    transceiversOf (startWebRtc env eid s).2 =
      [(.track (some { t with enabled := false }), "sendrecv"),
       (.kind "video", "recvonly")] ∧
    (startWebRtc env eid s).1.localReturnAudioTrack
      = some { t with enabled := false } := by
  constructor
  · obtain ⟨post, heq, hpost⟩ := startWebRtc_trace env eid s
    rw [heq, transceiversOf_append, transceiversOf_eq_nil post hpost,
        List.append_nil, transceiversOf_preSignal,
        audioSetup_captured env env.pcId { s with error := none } cfg t ts hc hd hm hg]
    rfl
  · rw [startWebRtc_localTrack,
        audioSetup_captured env env.pcId { s with error := none } cfg t ts hc hd hm hg]

/-- Witness for C2 at a concrete environment: sendrecv requested, media
devices present, capture returns the single track `⟨9, "audio", true⟩`. -/
theorem c2_witness :
    transceiversOf (startWebRtc
        { envBase with webRtcConfig := some ⟨none, none, some "sendrecv"⟩,
                       mediaDevices := true,
                       getUserMedia := .ok [⟨9, "audio", true⟩] }
        "camera.demo" {}).2 =
      [(.track (some ⟨9, "audio", false⟩), "sendrecv"),
       (.kind "video", "recvonly")] ∧
    (startWebRtc
        { envBase with webRtcConfig := some ⟨none, none, some "sendrecv"⟩,
                       mediaDevices := true,
                       getUserMedia := .ok [⟨9, "audio", true⟩] }
        "camera.demo" {}).1.localReturnAudioTrack
      = some ⟨9, "audio", false⟩ :=
  c2_sendrecv_transceiver
    { envBase with webRtcConfig := some ⟨none, none, some "sendrecv"⟩,
                   mediaDevices := true,
                   getUserMedia := .ok [⟨9, "audio", true⟩] }
    "camera.demo" {} ⟨none, none, some "sendrecv"⟩ ⟨9, "audio", true⟩ []
    rfl rfl rfl rfl

/-- Claim C4: when the per-entity configuration fetch carries no transport
configuration and the fallback yields nothing (component not loaded, no
settings, or falsy stun server), the one peer connection of the run is
constructed with the empty configuration: no ICE servers. -/
theorem c4_empty_configuration (env : Env) (eid : String) (s : CompState)
    (h1 : (env.webRtcConfig.bind fun c => c.rtc_configuration) = none)
    (h2 : env.rtspToWebrtcLoaded = false ∨ env.settings = none ∨
          ∃ st, env.settings = some st ∧ optStrTruthy st.stun_server = false) :
    constructedConfigs (startWebRtc env eid s).2 = [⟨none⟩] := by
  obtain ⟨post, heq, hpost⟩ := startWebRtc_trace env eid s
  rw [heq, constructedConfigs_append, constructedConfigs_eq_nil post hpost,
      List.append_nil, constructedConfigs_preSignal,
      resolvePeerConfiguration_fallback env h1,
      fetchPeerConfiguration_empty env h2]

/-- Witness for C4 at a concrete environment: no transport configuration and
the `rtsp_to_webrtc` component not loaded. -/
theorem c4_witness :
    constructedConfigs (startWebRtc envBase "camera.demo" {}).2 = [⟨none⟩] :=
  c4_empty_configuration envBase "camera.demo" {} rfl (Or.inl rfl)

/-- Claim C3 fails at capture failure (a code bug): when the backend requests
`"sendrecv"` two-way audio, media devices exist, and local capture fails
(`getUserMedia` rejects), `getMediaTracks` swallows the failure and returns
no tracks, so `_localReturnAudioTrack` stays unset — but the code still
calls `addTransceiver(this._localReturnAudioTrack!, { direction: "sendrecv" })`,
adding a send-receive transceiver seeded with `undefined` (a runtime
`TypeError` in browsers) instead of falling back to the receive-only audio
transceiver the claim describes.  The "no local track is kept, no mic
control" half of the claim does hold on this input. -/
theorem c3_capture_failure_behavior :
    transceiversOf (startWebRtc
        { envBase with webRtcConfig := some ⟨none, none, some "sendrecv"⟩,
                       mediaDevices := true,
                       getUserMedia := .error "NotAllowedError" }
        "camera.demo" {}).2
      = [(.track none, "sendrecv"), (.kind "video", "recvonly")] ∧
    (TransceiverSrc.kind "audio", "recvonly") ∉ transceiversOf (startWebRtc
        { envBase with webRtcConfig := some ⟨none, none, some "sendrecv"⟩,
                       mediaDevices := true,
                       getUserMedia := .error "NotAllowedError" }
        "camera.demo" {}).2 ∧
    (startWebRtc
        { envBase with webRtcConfig := some ⟨none, none, some "sendrecv"⟩,
                       mediaDevices := true,
                       getUserMedia := .error "NotAllowedError" }
        "camera.demo" {}).1.localReturnAudioTrack = none ∧
    render (startWebRtc
        { envBase with webRtcConfig := some ⟨none, none, some "sendrecv"⟩,
                       mediaDevices := true,
                       getUserMedia := .error "NotAllowedError" }
        "camera.demo" {}).1 = .video none := by
  decide

/-- The function `_startWebRtc` itself never stops a track and never closes a peer
connection other than the one it constructs in the same run. -/
theorem startWebRtc_no_teardown (env : Env) (eid : String) (s : CompState) :
    (∀ tk, Action.stopTrack tk ∉ (startWebRtc env eid s).2) ∧
    (∀ p, p ≠ env.pcId → Action.closePeerConnection p ∉ (startWebRtc env eid s).2) := by
  have hpre : ∀ a ∈ preSignalTrace env eid { s with error := none },
      isSetupAction a = true := preSignalTrace_setup env eid _
  cases ha : env.answer with
  | error msg =>
      rw [startWebRtc_sigFail env eid s msg ha]
      constructor
      · intro tk hm
        rcases List.mem_append.mp hm with hm | hm
        · have := hpre _ hm; simp [isSetupAction] at this
        · simp at hm
      · intro p hp hm
        rcases List.mem_append.mp hm with hm | hm
        · have := hpre _ hm; simp [isSetupAction] at this
        · simp at hm; exact hp hm
  | ok aSdp =>
      cases hr : env.remoteDesc with
      | error msg =>
          rw [startWebRtc_rdFail env eid s aSdp msg ha hr]
          constructor
          · intro tk hm
            rcases List.mem_append.mp hm with hm | hm
            · have := hpre _ hm; simp [isSetupAction] at this
            · simp at hm
          · intro p hp hm
            rcases List.mem_append.mp hm with hm | hm
            · have := hpre _ hm; simp [isSetupAction] at this
            · simp at hm; exact hp hm
      | ok u =>
          cases u
          rw [startWebRtc_success env eid s aSdp ha hr]
          constructor
          · intro tk hm
            rcases List.mem_append.mp hm with hm | hm
            · rcases List.mem_append.mp hm with hm | hm
              · have := hpre _ hm; simp [isSetupAction] at this
              · simp at hm
            · obtain ⟨tks, h⟩ := deliverTracks_actions _ _ _ _ hm
              cases h
          · intro p hp hm
            rcases List.mem_append.mp hm with hm | hm
            · rcases List.mem_append.mp hm with hm | hm
              · have := hpre _ hm; simp [isSetupAction] at this
              · simp at hm
            · obtain ⟨tks, h⟩ := deliverTracks_actions _ _ _ _ hm
              cases h

/-- Claim C6 is refuted at a concrete input.  An already-rendered widget holds
a full session (peer connection `1`, a remote stream with one track, a local
return-audio track); the entity identifier changes and `updated` runs.  The
negotiation re-starts (a new peer connection `2` ends up recorded), yet
nothing of the existing session is destroyed: peer connection `1` is never
closed and neither old track is ever stopped. -/
theorem c6_counterexample :
    ((updatedHook ["entityid"] { envBase with pcId := 2 } "camera.new"
        ⟨none, some ⟨none⟩, some 1, some ⟨[⟨5, "video", true⟩]⟩,
         some ⟨7, "audio", true⟩⟩).2 ≠ []) ∧
    (updatedHook ["entityid"] { envBase with pcId := 2 } "camera.new"
        ⟨none, some ⟨none⟩, some 1, some ⟨[⟨5, "video", true⟩]⟩,
         some ⟨7, "audio", true⟩⟩).1.peerConnection = some 2 ∧
    Action.closePeerConnection 1 ∉
      (updatedHook ["entityid"] { envBase with pcId := 2 } "camera.new"
        ⟨none, some ⟨none⟩, some 1, some ⟨[⟨5, "video", true⟩]⟩,
         some ⟨7, "audio", true⟩⟩).2 ∧
    Action.stopTrack ⟨7, "audio", true⟩ ∉
      (updatedHook ["entityid"] { envBase with pcId := 2 } "camera.new"
        ⟨none, some ⟨none⟩, some 1, some ⟨[⟨5, "video", true⟩]⟩,
         some ⟨7, "audio", true⟩⟩).2 ∧
    Action.stopTrack ⟨5, "video", true⟩ ∉
      (updatedHook ["entityid"] { envBase with pcId := 2 } "camera.new"
        ⟨none, some ⟨none⟩, some 1, some ⟨[⟨5, "video", true⟩]⟩,
         some ⟨7, "audio", true⟩⟩).2 := by
  decide

/-- Claim C6, amended: whenever the entity identifier property changes on an
already-rendered widget, the negotiation re-starts for the new identifier
WITHOUT destroying the existing session state first: the `updated` hook runs
a plain `_startWebRtc` from the current state, which stops no track and
closes no peer connection other than the one it itself constructs; existing
session fields are merely overwritten by the new negotiation's results
(session state is torn down only by `disconnectedCallback`). -/
theorem c6_restart_without_teardown (changed : List String) (env : Env)
    (eid : String) (s : CompState)
    (hch : changed.contains "entityid" = true)
    (hve : s.videoEl.isSome = true) :
    updatedHook changed env eid s = startWebRtc env eid s ∧
    (∀ tk, Action.stopTrack tk ∉ (startWebRtc env eid s).2) ∧
    (∀ p, p ≠ env.pcId →
       Action.closePeerConnection p ∉ (startWebRtc env eid s).2) := by
  refine ⟨?_, (startWebRtc_no_teardown env eid s).1,
          (startWebRtc_no_teardown env eid s).2⟩
  have hm : "entityid" ∈ changed := by simpa using hch
  cases hsv : s.videoEl with
  | none => rw [hsv] at hve; cases hve
  | some v => simp [updatedHook, hch, hsv, hm]

/-- Witness for the amended C6 at a concrete input: identifier changed, video
element present. -/
theorem c6_witness :
    updatedHook ["entityid"] envBase "camera.new" ⟨none, some ⟨none⟩, none, none, none⟩
        = startWebRtc envBase "camera.new" ⟨none, some ⟨none⟩, none, none, none⟩ ∧
    (∀ tk, Action.stopTrack tk ∉
        (startWebRtc envBase "camera.new" ⟨none, some ⟨none⟩, none, none, none⟩).2) ∧
    (∀ p, p ≠ envBase.pcId →
       Action.closePeerConnection p ∉
         (startWebRtc envBase "camera.new" ⟨none, some ⟨none⟩, none, none, none⟩).2) :=
  c6_restart_without_teardown ["entityid"] envBase "camera.new"
    ⟨none, some ⟨none⟩, none, none, none⟩ rfl rfl

/-- Claim C10: the cleanup path notifies the backend (`closeWebRtcStream`) iff
a peer connection is recorded in component state; starting from a state with
none recorded, `_startWebRtc` records one iff both the signaling exchange
and the remote-description application succeeded; and after a negotiation
aborted by either failure point, cleanup closes no peer connection and sends
no backend release request. -/
theorem c10_release_iff_recorded (env : Env) (eid : String) (s sA : CompState) :
    (∀ s' t, cleanUp eid s = .ok (s', t) →
       (Action.closeWebRtcStream eid ∈ t ↔ s.peerConnection.isSome = true)) ∧
    (sA.peerConnection = none →
       ((startWebRtc env eid sA).1.peerConnection.isSome = true ↔
          (∃ a, env.answer = .ok a) ∧ env.remoteDesc = .ok ())) ∧
    (sA.peerConnection = none →
       ((∀ a, env.answer ≠ .ok a) ∨ env.remoteDesc ≠ .ok ()) →
       ∀ s' t, cleanUp eid (startWebRtc env eid sA).1 = .ok (s', t) →
         (∀ p, Action.closePeerConnection p ∉ t) ∧
         Action.closeWebRtcStream eid ∉ t) := by
  refine ⟨fun s' t h => cleanUp_release_iff eid s s' t h, ?_, ?_⟩
  · intro hA
    rw [startWebRtc_peerConnection]
    cases ha : env.answer with
    | error m =>
        cases hr : env.remoteDesc <;> simp [hA]
    | ok a =>
        cases hr : env.remoteDesc with
        | error m => simp [hA, hr]
        | ok u => cases u; simp
  · intro hA hfail s' t h
    apply cleanUp_no_close eid _ ?_ s' t h
    rw [startWebRtc_peerConnection]
    cases ha : env.answer with
    | error m => cases hr : env.remoteDesc <;> simpa using hA
    | ok a =>
        cases hr : env.remoteDesc with
        | error m => simpa using hA
        | ok u =>
            cases u
            exfalso
            rcases hfail with hf | hf
            · exact hf a ha
            · exact hf hr

/-- Witness for C10: cleanup from a state holding peer connection `1`
releases the backend stream; a run whose signaling rejects records no peer
connection; cleanup after that aborted run closes nothing and sends no
release. -/
theorem c10_witness :
    ((Action.closeWebRtcStream "cam" ∈
        [Action.closePeerConnection 1, Action.closeWebRtcStream "cam"]) ↔
      (some 1 : Option Nat).isSome = true) ∧
    ((startWebRtc { envBase with answer := .error "x" } "cam" {}).1.peerConnection.isSome
        = true ↔
      (∃ a, ({ envBase with answer := .error "x" } : Env).answer = .ok a) ∧
        ({ envBase with answer := .error "x" } : Env).remoteDesc = .ok ()) ∧
    ((∀ p, Action.closePeerConnection p ∉ ([] : List Action)) ∧
      Action.closeWebRtcStream "cam" ∉ ([] : List Action)) := by
  have H := c10_release_iff_recorded { envBase with answer := .error "x" } "cam"
      ⟨none, none, some 1, none, none⟩ {}
  exact ⟨H.1 ⟨none, none, none, none, none⟩
          [Action.closePeerConnection 1, Action.closeWebRtcStream "cam"] rfl,
         H.2.1 rfl,
         H.2.2 rfl (Or.inl fun a h => by cases h) _ ([] : List Action) rfl⟩

end HaWebRtcPlayer
